import Mathlib

/-!
Shallow embedding of `src/contracts/FedClusterFHE.sol` (contract
`FedClusterFHE`).  Solidity `uint256` counters are modelled by `Nat`;
`euint32` ciphertext handles are modelled by the `Nat` plaintext value they
carry (`FHE.add` wraps at `2 ^ 32`); an uninitialized `euint32` mapping slot
is `Option.none` (`FHE.isInitialized` is `Option.isSome`).  Each external
entry point that can `require`-fail or panic returns
`Except SolError ContractState`; a failed transaction leaves the state
unchanged (standard revert semantics, captured by `applyOp`).  The external
decryption oracle of the spec (`FHE.requestDecryption`, which assigns
request ids the contract has no control over) is modelled as a fresh-id
counter `nextRequestId` carried in the state, and `FHE.checkSignatures` as a
caller-supplied boolean verdict function, since both live outside this
repository.
-/

namespace FedCluster

/-- Cleartext / proof byte strings, modelled by their ABI-level content:
an ABI-encoded triple of strings (the clustering path of
`performClustering`), an ABI-encoded 32-bit word (the stats path of
`decryptClusterStats`), or raw bytes decoding as neither. -/
inductive Bytes where
  | triple (features dataOwner clusterId : String)
  | word (n : Nat)
  | raw (data : List Nat)
deriving DecidableEq, Repr

/-- `abi.decode(cleartexts, (string, string, string))`: succeeds exactly on
an encoded triple, reverts otherwise. -/
def abiDecodeTriple : Bytes → Option (String × String × String)
  | .triple f o c => some (f, o, c)
  | _ => none

/-- `abi.decode(cleartexts, (uint32))`: succeeds exactly on an encoded
32-bit word. -/
def abiDecodeWord : Bytes → Option Nat
  | .word n => some n
  | _ => none

/-- Revert reasons of the contract entry points: the `require` messages,
ABI decode failure, and the Solidity `Panic(0x32)` array out-of-bounds
error. -/
inductive SolError where
  | alreadyClustered
  | invalidRequest
  | invalidProof
  | clusterNotFound
  | decodeError
  | arrayOutOfBounds
deriving DecidableEq, Repr

/-- Struct `EncryptedDataPoint` of the contract (the three `euint32` handles
are opaque here; their plaintext never flows into contract state). -/
structure EncryptedDataPoint where
  id : Nat
  encryptedFeatures : Nat
  encryptedDataOwner : Nat
  encryptedClusterId : Nat
  timestamp : Nat
deriving DecidableEq, Repr

/-- Struct `DecryptedDataPoint` of the contract. -/
structure DecryptedDataPoint where
  features : String
  dataOwner : String
  clusterId : String
  isClustered : Bool
deriving DecidableEq, Repr

/-- Pointwise update of a `Nat`-keyed Solidity mapping. -/
def setNat {α : Type} (f : Nat → α) (k : Nat) (v : α) : Nat → α :=
  fun k' => if k' = k then v else f k'

/-- Pointwise update of a `string`-keyed Solidity mapping. -/
def setStr {α : Type} (f : String → α) (k : String) (v : α) : String → α :=
  fun k' => if k' = k then v else f k'

/-- Lookup in `requestToDataPointId`, an association list mirroring the
Solidity mapping: an absent key reads as the default `0` (the contract's
"not found" sentinel). -/
def lookupReq (m : List (Nat × Nat)) (k : Nat) : Nat :=
  match m.find? (fun p => p.1 == k) with
  | some p => p.2
  | none => 0

/-- Ideal-hash model of `bytes32ToUint(keccak256(abi.encodePacked(s)))`:
an injective encoding of the string into a positive number (the contract
ignores keccak collisions throughout, and so does the model). -/
def keccakStr (s : String) : Nat :=
  s.data.foldl (fun a c => a * 1114112 + c.toNat + 1) 1

/-- Wrapping 32-bit addition, the semantics of `FHE.add` on `euint32`. -/
def euint32Add (a b : Nat) : Nat := (a + b) % 4294967296

/-- The contract storage, plus `nextRequestId`, the model of the external
oracle's request-id source (each issued id is fresh; the spec's interface
`requestDecryption -> requestId` gives the oracle no failure mode). -/
structure ContractState where
  dataPointCount : Nat
  encryptedDataPoints : Nat → EncryptedDataPoint
  decryptedDataPoints : Nat → DecryptedDataPoint
  encryptedClusterStats : String → Option Nat
  clusterList : List String
  requestToDataPointId : List (Nat × Nat)
  nextRequestId : Nat

/-- The all-defaults record a fresh `decryptedDataPoints` slot holds. -/
def emptyDecrypted : DecryptedDataPoint := ⟨"", "", "", false⟩

/-- Contract storage right after deployment: zero count, default mapping
slots, empty cluster registry, no pending requests. -/
def initialState : ContractState where
  dataPointCount := 0
  encryptedDataPoints := fun _ => ⟨0, 0, 0, 0, 0⟩
  decryptedDataPoints := fun _ => emptyDecrypted
  encryptedClusterStats := fun _ => none
  clusterList := []
  requestToDataPointId := []
  nextRequestId := 0

/-- `submitEncryptedDataPoint`: increments `dataPointCount`, stores the
ciphertext record under the new id and an all-empty decrypted shadow.
Never reverts. -/
def submitEncryptedDataPoint (s : ContractState)
    (encryptedFeatures encryptedDataOwner encryptedClusterId ts : Nat) :
    ContractState :=
  let newId := s.dataPointCount + 1
  { s with
    dataPointCount := newId
    encryptedDataPoints := setNat s.encryptedDataPoints newId
      ⟨newId, encryptedFeatures, encryptedDataOwner, encryptedClusterId, ts⟩
    decryptedDataPoints := setNat s.decryptedDataPoints newId emptyDecrypted }

/-- `requestFederatedClustering`: requires the decrypted shadow not yet
clustered, then asks the oracle to decrypt the three handles and registers
the returned fresh request id against `dataPointId`. -/
def requestFederatedClustering (s : ContractState) (dataPointId : Nat) :
    Except SolError ContractState :=
  if (s.decryptedDataPoints dataPointId).isClustered then
    .error .alreadyClustered
  else
    .ok { s with
      requestToDataPointId := (s.nextRequestId, dataPointId) :: s.requestToDataPointId
      nextRequestId := s.nextRequestId + 1 }

/-- The cluster-stats mapping after the lazy initialization of lines
103-106 of the source: when the cluster's slot is uninitialized it is set
to an encrypted `0` (and the cluster is pushed to the registry, handled
separately). -/
def statsInit (s : ContractState) (c : String) : String → Option Nat :=
  if (s.encryptedClusterStats c).isNone then setStr s.encryptedClusterStats c (some 0)
  else s.encryptedClusterStats

/-- The state written by a successful `performClustering` callback for
`dataPointId` with decoded cleartext `(f, o, c)`: fills the decrypted
record, marks it clustered, lazily initializes the cluster's aggregate and
registry entry, then adds an encrypted `1` to the aggregate. -/
def applyDecryption (s : ContractState) (dataPointId : Nat) (f o c : String) :
    ContractState :=
  { s with
    decryptedDataPoints := setNat s.decryptedDataPoints dataPointId ⟨f, o, c, true⟩
    encryptedClusterStats :=
      setStr (statsInit s c) c (some (euint32Add ((statsInit s c c).getD 0) 1))
    clusterList :=
      if (s.encryptedClusterStats c).isNone then s.clusterList ++ [c]
      else s.clusterList }

/-- `performClustering(requestId, cleartexts, proof)`: looks up the request
(`0` means unknown and reverts), requires the target record not yet
clustered, then verifies the oracle proof, decodes the triple and applies
the decryption — in exactly the source's order of checks. -/
def performClustering (s : ContractState)
    (checkSig : Nat → Bytes → Bytes → Bool)
    (requestId : Nat) (cleartexts proof : Bytes) :
    Except SolError ContractState :=
  if lookupReq s.requestToDataPointId requestId = 0 then
    .error .invalidRequest
  else if (s.decryptedDataPoints (lookupReq s.requestToDataPointId requestId)).isClustered then
    .error .alreadyClustered
  else if checkSig requestId cleartexts proof then
    match abiDecodeTriple cleartexts with
    | some (f, o, c) =>
      .ok (applyDecryption s (lookupReq s.requestToDataPointId requestId) f o c)
    | none => .error .decodeError
  else
    .error .invalidProof

/-- `requestClusterStatsDecryption`: requires the cluster's aggregate to be
initialized, then registers a fresh request id against the keccak hash of
the cluster name in the same request map. -/
def requestClusterStatsDecryption (s : ContractState) (clusterId : String) :
    Except SolError ContractState :=
  match s.encryptedClusterStats clusterId with
  | none => .error .clusterNotFound
  | some _ =>
    .ok { s with
      requestToDataPointId := (s.nextRequestId, keccakStr clusterId) :: s.requestToDataPointId
      nextRequestId := s.nextRequestId + 1 }

/-- The scan of `getClusterFromHash`: first registered cluster whose name
hashes to `hash`, reverting with `Cluster not found` otherwise. -/
def findClusterByHash (hash : Nat) : List String → Except SolError String
  | [] => .error .clusterNotFound
  | c :: rest => if keccakStr c = hash then .ok c else findClusterByHash hash rest

/-- `getClusterFromHash` over the contract's cluster registry. -/
def getClusterFromHash (s : ContractState) (hash : Nat) : Except SolError String :=
  findClusterByHash hash s.clusterList

/-- `decryptClusterStats(requestId, cleartexts, proof)`: resolves the stored
cluster hash back to a name (reverting when no registered cluster matches),
verifies the proof, decodes the `uint32` — and stores nothing. -/
def decryptClusterStats (s : ContractState)
    (checkSig : Nat → Bytes → Bytes → Bool)
    (requestId : Nat) (cleartexts proof : Bytes) :
    Except SolError ContractState :=
  match getClusterFromHash s (lookupReq s.requestToDataPointId requestId) with
  | .error e => .error e
  | .ok _ =>
    if checkSig requestId cleartexts proof then
      match abiDecodeWord cleartexts with
      | some _ => .ok s
      | none => .error .decodeError
    else
      .error .invalidProof

/-- The gathering loop of `calculateClusterCentroids`: walks the given ids,
and for each clustered record of the cluster writes its features at index
`count` of the memory array `allFeatures` — which the source never
allocates, so the write panics out of bounds as soon as the index reaches
the array length. -/
def centroidLoop (s : ContractState) (clusterId : String)
    (allFeatures : List String) (count : Nat) :
    List Nat → Except SolError (List String × Nat)
  | [] => .ok (allFeatures, count)
  | i :: rest =>
    let d := s.decryptedDataPoints i
    if d.isClustered && d.clusterId == clusterId then
      if count < allFeatures.length then
        centroidLoop s clusterId (allFeatures.set count d.features) (count + 1) rest
      else
        .error .arrayOutOfBounds
    else
      centroidLoop s clusterId allFeatures count rest

/-- `calculateClusterCentroids(clusterId)`: the source declares
`string[] memory allFeatures;` without allocating it (length `0`), scans
ids `1 .. dataPointCount`, and finally returns
`count > 0 ? allFeatures[0] : ""`. -/
def calculateClusterCentroids (s : ContractState) (clusterId : String) :
    Except SolError String :=
  match centroidLoop s clusterId [] 0 ((List.range s.dataPointCount).map (· + 1)) with
  | .error e => .error e
  | .ok (allFeatures, count) =>
    if 0 < count then
      match allFeatures with
      | [] => .error .arrayOutOfBounds
      | f :: _ => .ok f
    else
      .ok ""

/-- `calculateSimilarity`: `100` on keccak-equal (hence string-equal)
features, `50` otherwise. -/
def calculateSimilarity (features1 features2 : String) : Nat :=
  if features1 = features2 then 100 else 50

/-- First pass of `findSimilarClusters`: counts the clusters whose centroid
scores at least the threshold, propagating any centroid revert. -/
def similarCountPass (s : ContractState) (target : String) (threshold : Nat) :
    List String → Except SolError Nat
  | [] => .ok 0
  | c :: rest =>
    match calculateClusterCentroids s c with
    | .error e => .error e
    | .ok centroid =>
      match similarCountPass s target threshold rest with
      | .error e => .error e
      | .ok n => .ok (if threshold ≤ calculateSimilarity target centroid then n + 1 else n)

/-- Second pass of `findSimilarClusters`: collects the qualifying cluster
names in registry order. -/
def similarFillPass (s : ContractState) (target : String) (threshold : Nat) :
    List String → Except SolError (List String)
  | [] => .ok []
  | c :: rest =>
    match calculateClusterCentroids s c with
    | .error e => .error e
    | .ok centroid =>
      match similarFillPass s target threshold rest with
      | .error e => .error e
      | .ok l => .ok (if threshold ≤ calculateSimilarity target centroid then c :: l else l)

/-- `findSimilarClusters(targetFeatures, similarityThreshold)`: two passes
over the cluster registry, each recomputing every centroid. -/
def findSimilarClusters (s : ContractState) (target : String) (threshold : Nat) :
    Except SolError (List String) :=
  match similarCountPass s target threshold s.clusterList with
  | .error e => .error e
  | .ok _ => similarFillPass s target threshold s.clusterList

/-- One external transaction against the contract. -/
inductive Op where
  | submit (ef eo ec ts : Nat)
  | request (dataPointId : Nat)
  | callback (checkSig : Nat → Bytes → Bytes → Bool)
      (requestId : Nat) (cleartexts proof : Bytes)
  | statsRequest (clusterId : String)
  | statsCallback (checkSig : Nat → Bytes → Bytes → Bool)
      (requestId : Nat) (cleartexts proof : Bytes)

/-- Revert semantics: a failed transaction leaves the pre-state. -/
def applyExcept (s : ContractState) : Except SolError ContractState → ContractState
  | .ok s' => s'
  | .error _ => s

/-- Transaction semantics of one operation. -/
def applyOp (s : ContractState) : Op → ContractState
  | .submit ef eo ec ts => submitEncryptedDataPoint s ef eo ec ts
  | .request id => applyExcept s (requestFederatedClustering s id)
  | .callback sig r ct pf => applyExcept s (performClustering s sig r ct pf)
  | .statsRequest c => applyExcept s (requestClusterStatsDecryption s c)
  | .statsCallback sig r ct pf => applyExcept s (decryptClusterStats s sig r ct pf)

/-- States reachable from deployment by any sequence of transactions. -/
inductive Reachable : ContractState → Prop where
  | init : Reachable initialState
  | step {s : ContractState} (op : Op) : Reachable s → Reachable (applyOp s op)

/-- Run a transaction trace from deployment. -/
def execTrace (ops : List Op) : ContractState := ops.foldl applyOp initialState

/-- An oracle verdict accepting every proof. -/
def sigOK : Nat → Bytes → Bytes → Bool := fun _ _ _ => true

/-- An oracle verdict rejecting every proof. -/
def sigNO : Nat → Bytes → Bytes → Bool := fun _ _ _ => false

/-- A placeholder proof byte string. -/
def noProof : Bytes := .raw []

/-- The spec's scenario trace: submit three encrypted points, request
clustering for each, and complete all three decryptions with cluster ids
"A", "A", "B". -/
def scenarioOps : List Op :=
  [ .submit 11 21 31 100, .submit 12 22 32 101, .submit 13 23 33 102,
    .request 1, .request 2, .request 3,
    .callback sigOK 0 (.triple "f1" "o1" "A") noProof,
    .callback sigOK 1 (.triple "f2" "o2" "A") noProof,
    .callback sigOK 2 (.triple "f3" "o3" "B") noProof ]

/-- The contract state after the scenario trace. -/
def scenarioState : ContractState := execTrace scenarioOps

/-- State after submitting one point and requesting its clustering
(request id `0` is pending for data point `1`). -/
def preState : ContractState :=
  execTrace [.submit 11 21 31 100, .request 1]

/-- State after a full clustering round for one point: request id `0` is
still registered (the contract never removes consumed requests) and data
point `1` is already clustered. -/
def cexState : ContractState :=
  execTrace [.submit 11 21 31 100, .request 1,
    .callback sigOK 0 (.triple "f1" "o1" "A") noProof]

/-- Scenario state followed by a stats-decryption request for cluster "A"
(request id `3` holds the keccak hash of "A"). -/
def statsState : ContractState :=
  execTrace (scenarioOps ++ [.statsRequest "A"])

/-- The ids handed out by the successive `submitEncryptedDataPoint` calls
of a trace run from `s`. -/
def assignedIds (s : ContractState) : List Op → List Nat
  | [] => []
  | op :: rest =>
    match op with
    | .submit _ _ _ _ => (s.dataPointCount + 1) :: assignedIds (applyOp s op) rest
    | _ => assignedIds (applyOp s op) rest

/-- Number of submissions in a trace. -/
def submitCount : List Op → Nat
  | [] => 0
  | .submit _ _ _ _ :: rest => submitCount rest + 1
  | _ :: rest => submitCount rest

/-- The state invariant maintained by every contract transaction:
plaintext fields are empty until a record is clustered, the cluster
registry is duplicate-free and mirrors the initialized aggregate slots,
and every registered request id was issued by the oracle counter. -/
structure Inv (s : ContractState) : Prop where
  emptyUntilClustered : ∀ id, (s.decryptedDataPoints id).isClustered = false →
    (s.decryptedDataPoints id).features = "" ∧
    (s.decryptedDataPoints id).dataOwner = "" ∧
    (s.decryptedDataPoints id).clusterId = ""
  nodupClusters : s.clusterList.Nodup
  clusterStatsIff : ∀ c, c ∈ s.clusterList ↔ (s.encryptedClusterStats c).isSome
  reqIdBound : ∀ p ∈ s.requestToDataPointId, p.1 < s.nextRequestId

/-! ### Helper lemmas -/

theorem setNat_self {α : Type} (f : Nat → α) (k : Nat) (v : α) :
    setNat f k v k = v := by
  simp [setNat]

theorem setNat_ne {α : Type} (f : Nat → α) (k k' : Nat) (v : α) (h : k' ≠ k) :
    setNat f k v k' = f k' := by
  simp [setNat, h]

theorem setStr_self {α : Type} (f : String → α) (k : String) (v : α) :
    setStr f k v k = v := by
  simp [setStr]

theorem setStr_ne {α : Type} (f : String → α) (k k' : String) (v : α) (h : k' ≠ k) :
    setStr f k v k' = f k' := by
  simp [setStr, h]

theorem lookupReq_nil (k : Nat) : lookupReq [] k = 0 := rfl

theorem lookupReq_cons (p : Nat × Nat) (m : List (Nat × Nat)) (k : Nat) :
    lookupReq (p :: m) k = if p.1 = k then p.2 else lookupReq m k := by
  by_cases h : p.1 = k
  · simp [lookupReq, List.find?, h]
  · have hb : (p.1 == k) = false := by simp [h]
    simp [lookupReq, List.find?, hb, h]

theorem lookupReq_not_mem {m : List (Nat × Nat)} {k : Nat}
    (h : k ∉ m.map Prod.fst) : lookupReq m k = 0 := by
  unfold lookupReq
  have hnone : m.find? (fun p => p.1 == k) = none := by
    rw [List.find?_eq_none]
    intro p hp
    simp only [beq_iff_eq]
    intro hk
    exact h (List.mem_map.mpr ⟨p, hp, hk⟩)
  rw [hnone]

theorem statsInit_self (s : ContractState) (c : String) :
    statsInit s c c = some ((s.encryptedClusterStats c).getD 0) := by
  unfold statsInit
  cases h : s.encryptedClusterStats c <;> simp [h, setStr_self]

theorem statsInit_ne (s : ContractState) (c c' : String) (h : c' ≠ c) :
    statsInit s c c' = s.encryptedClusterStats c' := by
  unfold statsInit
  split <;> simp [setStr_ne _ _ _ _ h]

theorem applyDecryption_count (s : ContractState) (dp : Nat) (f o c : String) :
    (applyDecryption s dp f o c).dataPointCount = s.dataPointCount := rfl

theorem applyDecryption_reqMap (s : ContractState) (dp : Nat) (f o c : String) :
    (applyDecryption s dp f o c).requestToDataPointId = s.requestToDataPointId := rfl

theorem applyDecryption_next (s : ContractState) (dp : Nat) (f o c : String) :
    (applyDecryption s dp f o c).nextRequestId = s.nextRequestId := rfl

theorem applyDecryption_records (s : ContractState) (dp : Nat) (f o c : String) :
    (applyDecryption s dp f o c).decryptedDataPoints =
      setNat s.decryptedDataPoints dp ⟨f, o, c, true⟩ := rfl

theorem applyDecryption_clusterList (s : ContractState) (dp : Nat) (f o c : String) :
    (applyDecryption s dp f o c).clusterList =
      if (s.encryptedClusterStats c).isNone then s.clusterList ++ [c]
      else s.clusterList := rfl

theorem applyDecryption_stats_self (s : ContractState) (dp : Nat) (f o c : String) :
    (applyDecryption s dp f o c).encryptedClusterStats c =
      some (euint32Add ((s.encryptedClusterStats c).getD 0) 1) := by
  show setStr (statsInit s c) c _ c = _
  rw [setStr_self, statsInit_self]
  rfl

theorem applyDecryption_stats_ne (s : ContractState) (dp : Nat) (f o c c' : String)
    (h : c' ≠ c) :
    (applyDecryption s dp f o c).encryptedClusterStats c' =
      s.encryptedClusterStats c' := by
  show setStr (statsInit s c) c _ c' = _
  rw [setStr_ne _ _ _ _ h, statsInit_ne _ _ _ h]

theorem performClustering_ok_cases {s : ContractState}
    {sig : Nat → Bytes → Bytes → Bool} {r : Nat} {ct pf : Bytes}
    {s' : ContractState} (h : performClustering s sig r ct pf = .ok s') :
    ∃ f o c, ct = Bytes.triple f o c ∧
      lookupReq s.requestToDataPointId r ≠ 0 ∧
      (s.decryptedDataPoints (lookupReq s.requestToDataPointId r)).isClustered = false ∧
      sig r ct pf = true ∧
      s' = applyDecryption s (lookupReq s.requestToDataPointId r) f o c := by
  unfold performClustering at h
  split at h
  · exact absurd h (by simp)
  · split at h
    · exact absurd h (by simp)
    · split at h
      · split at h
        · next f o c hdec =>
          cases ct with
          | triple f' o' c' =>
            simp only [abiDecodeTriple, Option.some.injEq, Prod.mk.injEq] at hdec
            obtain ⟨hf, ho, hc⟩ := hdec
            subst hf; subst ho; subst hc
            refine ⟨f', o', c', rfl, by assumption, ?_, by assumption, ?_⟩
            · simp_all
            · exact (Except.ok.inj h).symm
          | word n => simp [abiDecodeTriple] at hdec
          | raw d => simp [abiDecodeTriple] at hdec
        · exact absurd h (by simp)
      · exact absurd h (by simp)

theorem requestFederatedClustering_ok_cases {s : ContractState} {id : Nat}
    {s' : ContractState} (h : requestFederatedClustering s id = .ok s') :
    (s.decryptedDataPoints id).isClustered = false ∧
    s' = { s with
      requestToDataPointId := (s.nextRequestId, id) :: s.requestToDataPointId
      nextRequestId := s.nextRequestId + 1 } := by
  unfold requestFederatedClustering at h
  split at h
  · exact absurd h (by simp)
  · next hnc =>
    exact ⟨Bool.not_eq_true _ ▸ Bool.of_not_eq_true hnc, (Except.ok.inj h).symm⟩

theorem requestClusterStatsDecryption_ok_cases {s : ContractState} {c : String}
    {s' : ContractState} (h : requestClusterStatsDecryption s c = .ok s') :
    s' = { s with
      requestToDataPointId := (s.nextRequestId, keccakStr c) :: s.requestToDataPointId
      nextRequestId := s.nextRequestId + 1 } := by
  unfold requestClusterStatsDecryption at h
  split at h
  · exact absurd h (by simp)
  · exact (Except.ok.inj h).symm

theorem decryptClusterStats_ok_eq {s : ContractState}
    {sig : Nat → Bytes → Bytes → Bool} {r : Nat} {ct pf : Bytes}
    {s' : ContractState} (h : decryptClusterStats s sig r ct pf = .ok s') :
    s' = s := by
  unfold decryptClusterStats at h
  split at h
  · exact absurd h (by simp)
  · split at h
    · split at h
      · exact (Except.ok.inj h).symm
      · exact absurd h (by simp)
    · exact absurd h (by simp)

theorem inv_initial : Inv initialState := by
  refine ⟨?_, ?_, ?_, ?_⟩
  · intro id _; exact ⟨rfl, rfl, rfl⟩
  · exact List.nodup_nil
  · intro c; simp [initialState]
  · intro p hp; simp [initialState] at hp

theorem inv_submit {s : ContractState} (hs : Inv s) (ef eo ec ts : Nat) :
    Inv (submitEncryptedDataPoint s ef eo ec ts) := by
  obtain ⟨h1, h3, h4, h5⟩ := hs
  refine ⟨?_, h3, h4, h5⟩
  intro id hid
  by_cases h : id = s.dataPointCount + 1
  · subst h
    have heq : (submitEncryptedDataPoint s ef eo ec ts).decryptedDataPoints
        (s.dataPointCount + 1) = emptyDecrypted := setNat_self _ _ _
    rw [heq]
    exact ⟨rfl, rfl, rfl⟩
  · have hid' : (s.decryptedDataPoints id).isClustered = false := by
      have heq : (submitEncryptedDataPoint s ef eo ec ts).decryptedDataPoints id
          = s.decryptedDataPoints id := setNat_ne _ _ _ _ h
      rw [heq] at hid
      exact hid
    have heq : (submitEncryptedDataPoint s ef eo ec ts).decryptedDataPoints id
        = s.decryptedDataPoints id := setNat_ne _ _ _ _ h
    rw [heq]
    exact h1 id hid'

theorem inv_applyDecryption {s : ContractState} (hs : Inv s) (dp : Nat)
    (f o c : String) : Inv (applyDecryption s dp f o c) := by
  obtain ⟨h1, h3, h4, h5⟩ := hs
  refine ⟨?_, ?_, ?_, h5⟩
  · intro id hid
    rw [applyDecryption_records] at hid ⊢
    by_cases h : id = dp
    · subst h; rw [setNat_self] at hid; simp at hid
    · rw [setNat_ne _ _ _ _ h] at hid ⊢
      exact h1 id hid
  · rw [applyDecryption_clusterList]
    cases hstat : s.encryptedClusterStats c with
    | none =>
      have hc : c ∉ s.clusterList := by
        intro hmem
        have := (h4 c).mp hmem
        rw [hstat] at this
        simp at this
      simp [List.nodup_append, h3, hc]
    | some v => simp [hstat, h3]
  · intro c'
    by_cases hc' : c' = c
    · subst hc'
      rw [applyDecryption_clusterList, applyDecryption_stats_self]
      cases hstat : s.encryptedClusterStats c' with
      | none => simp [hstat]
      | some v =>
        have hmem : c' ∈ s.clusterList := (h4 c').mpr (by simp [hstat])
        simp [hstat, hmem]
    · rw [applyDecryption_clusterList, applyDecryption_stats_ne _ _ _ _ _ _ hc']
      cases hstat : s.encryptedClusterStats c with
      | none => simp [hstat, hc', h4 c']
      | some v => simp [hstat, h4 c']

theorem inv_request {s : ContractState} (hs : Inv s) (id : Nat) :
    Inv (applyExcept s (requestFederatedClustering s id)) := by
  cases h : requestFederatedClustering s id with
  | error e => exact hs
  | ok s' =>
    obtain ⟨-, rfl⟩ := requestFederatedClustering_ok_cases h
    obtain ⟨h1, h3, h4, h5⟩ := hs
    refine ⟨h1, h3, h4, ?_⟩
    intro p hp
    rcases List.mem_cons.mp hp with rfl | hp'
    · exact Nat.lt_succ_self _
    · exact Nat.lt_succ_of_lt (h5 p hp')

theorem inv_statsRequest {s : ContractState} (hs : Inv s) (c : String) :
    Inv (applyExcept s (requestClusterStatsDecryption s c)) := by
  cases h : requestClusterStatsDecryption s c with
  | error e => exact hs
  | ok s' =>
    obtain rfl := requestClusterStatsDecryption_ok_cases h
    obtain ⟨h1, h3, h4, h5⟩ := hs
    refine ⟨h1, h3, h4, ?_⟩
    intro p hp
    rcases List.mem_cons.mp hp with rfl | hp'
    · exact Nat.lt_succ_self _
    · exact Nat.lt_succ_of_lt (h5 p hp')

theorem inv_callback {s : ContractState} (hs : Inv s)
    (sig : Nat → Bytes → Bytes → Bool) (r : Nat) (ct pf : Bytes) :
    Inv (applyExcept s (performClustering s sig r ct pf)) := by
  cases h : performClustering s sig r ct pf with
  | error e => exact hs
  | ok s' =>
    obtain ⟨f, o, c, -, -, -, -, rfl⟩ := performClustering_ok_cases h
    exact inv_applyDecryption hs _ f o c

theorem inv_statsCallback {s : ContractState} (hs : Inv s)
    (sig : Nat → Bytes → Bytes → Bool) (r : Nat) (ct pf : Bytes) :
    Inv (applyExcept s (decryptClusterStats s sig r ct pf)) := by
  cases h : decryptClusterStats s sig r ct pf with
  | error e => exact hs
  | ok s' =>
    obtain rfl := decryptClusterStats_ok_eq h
    exact hs

theorem inv_applyOp {s : ContractState} (hs : Inv s) (op : Op) :
    Inv (applyOp s op) := by
  cases op with
  | submit ef eo ec ts => exact inv_submit hs ef eo ec ts
  | request id => exact inv_request hs id
  | callback sig r ct pf => exact inv_callback hs sig r ct pf
  | statsRequest c => exact inv_statsRequest hs c
  | statsCallback sig r ct pf => exact inv_statsCallback hs sig r ct pf

theorem reachable_inv {s : ContractState} (h : Reachable s) : Inv s := by
  induction h with
  | init => exact inv_initial
  | step op _ ih => exact inv_applyOp ih op

theorem reachable_foldl {s : ContractState} (hs : Reachable s) (ops : List Op) :
    Reachable (ops.foldl applyOp s) := by
  induction ops generalizing s with
  | nil => exact hs
  | cons op rest ih => exact ih (Reachable.step op hs)

theorem reachable_execTrace (ops : List Op) : Reachable (execTrace ops) :=
  reachable_foldl Reachable.init ops

theorem dataPointCount_applyOp (s : ContractState) (op : Op) :
    (applyOp s op).dataPointCount =
      match op with
      | .submit _ _ _ _ => s.dataPointCount + 1
      | _ => s.dataPointCount := by
  cases op with
  | submit ef eo ec ts => rfl
  | request id =>
    show (applyExcept s (requestFederatedClustering s id)).dataPointCount = _
    cases h : requestFederatedClustering s id with
    | error e => rfl
    | ok s' => obtain ⟨-, rfl⟩ := requestFederatedClustering_ok_cases h; rfl
  | callback sig r ct pf =>
    show (applyExcept s (performClustering s sig r ct pf)).dataPointCount = _
    cases h : performClustering s sig r ct pf with
    | error e => rfl
    | ok s' =>
      obtain ⟨f, o, c, -, -, -, -, rfl⟩ := performClustering_ok_cases h
      rfl
  | statsRequest c =>
    show (applyExcept s (requestClusterStatsDecryption s c)).dataPointCount = _
    cases h : requestClusterStatsDecryption s c with
    | error e => rfl
    | ok s' => obtain rfl := requestClusterStatsDecryption_ok_cases h; rfl
  | statsCallback sig r ct pf =>
    show (applyExcept s (decryptClusterStats s sig r ct pf)).dataPointCount = _
    cases h : decryptClusterStats s sig r ct pf with
    | error e => rfl
    | ok s' => obtain rfl := decryptClusterStats_ok_eq h; rfl

theorem decrypted_applyOp_clustered (s : ContractState) (op : Op) (id : Nat)
    (hid : id ≤ s.dataPointCount)
    (h : (s.decryptedDataPoints id).isClustered = true) :
    ((applyOp s op).decryptedDataPoints id).isClustered = true := by
  cases op with
  | submit ef eo ec ts =>
    have hne : id ≠ s.dataPointCount + 1 := by omega
    show ((setNat s.decryptedDataPoints (s.dataPointCount + 1) emptyDecrypted)
      id).isClustered = true
    rw [setNat_ne _ _ _ _ hne]
    exact h
  | request id' =>
    show ((applyExcept s (requestFederatedClustering s id')).decryptedDataPoints
      id).isClustered = true
    cases hh : requestFederatedClustering s id' with
    | error e => exact h
    | ok s' => obtain ⟨-, rfl⟩ := requestFederatedClustering_ok_cases hh; exact h
  | callback sig r ct pf =>
    show ((applyExcept s (performClustering s sig r ct pf)).decryptedDataPoints
      id).isClustered = true
    cases hh : performClustering s sig r ct pf with
    | error e => exact h
    | ok s' =>
      obtain ⟨f, o, c, -, -, -, -, rfl⟩ := performClustering_ok_cases hh
      show ((applyDecryption s (lookupReq s.requestToDataPointId r) f o
        c).decryptedDataPoints id).isClustered = true
      rw [applyDecryption_records]
      by_cases hdp : id = lookupReq s.requestToDataPointId r
      · subst hdp; rw [setNat_self]
      · rw [setNat_ne _ _ _ _ hdp]; exact h
  | statsRequest c =>
    show ((applyExcept s (requestClusterStatsDecryption s c)).decryptedDataPoints
      id).isClustered = true
    cases hh : requestClusterStatsDecryption s c with
    | error e => exact h
    | ok s' => obtain rfl := requestClusterStatsDecryption_ok_cases hh; exact h
  | statsCallback sig r ct pf =>
    show ((applyExcept s (decryptClusterStats s sig r ct pf)).decryptedDataPoints
      id).isClustered = true
    cases hh : decryptClusterStats s sig r ct pf with
    | error e => exact h
    | ok s' => obtain rfl := decryptClusterStats_ok_eq hh; exact h

theorem assignedIds_nil (s : ContractState) : assignedIds s [] = [] := rfl

theorem assignedIds_cons_submit (s : ContractState) (ef eo ec ts : Nat)
    (rest : List Op) :
    assignedIds s (.submit ef eo ec ts :: rest) =
      (s.dataPointCount + 1) :: assignedIds (applyOp s (.submit ef eo ec ts)) rest := rfl

theorem assignedIds_cons_request (s : ContractState) (id : Nat) (rest : List Op) :
    assignedIds s (.request id :: rest) =
      assignedIds (applyOp s (.request id)) rest := rfl

theorem assignedIds_cons_callback (s : ContractState)
    (sig : Nat → Bytes → Bytes → Bool) (r : Nat) (ct pf : Bytes) (rest : List Op) :
    assignedIds s (.callback sig r ct pf :: rest) =
      assignedIds (applyOp s (.callback sig r ct pf)) rest := rfl

theorem assignedIds_cons_statsRequest (s : ContractState) (c : String)
    (rest : List Op) :
    assignedIds s (.statsRequest c :: rest) =
      assignedIds (applyOp s (.statsRequest c)) rest := rfl

theorem assignedIds_cons_statsCallback (s : ContractState)
    (sig : Nat → Bytes → Bytes → Bool) (r : Nat) (ct pf : Bytes) (rest : List Op) :
    assignedIds s (.statsCallback sig r ct pf :: rest) =
      assignedIds (applyOp s (.statsCallback sig r ct pf)) rest := rfl

theorem assignedIds_eq (ops : List Op) : ∀ s : ContractState,
    assignedIds s ops = List.range' (s.dataPointCount + 1) (submitCount ops) := by
  induction ops with
  | nil => intro s; rfl
  | cons op rest ih =>
    intro s
    cases op with
    | submit ef eo ec ts =>
      have hc : (applyOp s (Op.submit ef eo ec ts)).dataPointCount =
          s.dataPointCount + 1 := dataPointCount_applyOp s (Op.submit ef eo ec ts)
      rw [assignedIds_cons_submit, ih, hc]
      show _ = List.range' (s.dataPointCount + 1) (submitCount rest + 1)
      rw [List.range'_succ]
    | request id =>
      have hc : (applyOp s (Op.request id)).dataPointCount = s.dataPointCount :=
        dataPointCount_applyOp s (Op.request id)
      rw [assignedIds_cons_request, ih, hc]
      rfl
    | callback sig r ct pf =>
      have hc : (applyOp s (Op.callback sig r ct pf)).dataPointCount =
          s.dataPointCount := dataPointCount_applyOp s (Op.callback sig r ct pf)
      rw [assignedIds_cons_callback, ih, hc]
      rfl
    | statsRequest c =>
      have hc : (applyOp s (Op.statsRequest c)).dataPointCount = s.dataPointCount :=
        dataPointCount_applyOp s (Op.statsRequest c)
      rw [assignedIds_cons_statsRequest, ih, hc]
      rfl
    | statsCallback sig r ct pf =>
      have hc : (applyOp s (Op.statsCallback sig r ct pf)).dataPointCount =
          s.dataPointCount := dataPointCount_applyOp s (Op.statsCallback sig r ct pf)
      rw [assignedIds_cons_statsCallback, ih, hc]
      rfl

/-! ### Claim theorems -/

/-- C1: for every data point record with `isClustered = false` and a
registered pending request id, a `performClustering` callback with that
request id and a valid proof decodes the cleartext into
`(features, owner, clusterId)`, writes them into the record, sets
`isClustered = true` exactly once (a repeated callback reverts with
`AlreadyClustered`), and increments the owning cluster's aggregate count by
exactly 1 (as a wrapping 32-bit counter); in particular the three-point
scenario with cluster ids "A", "A", "B" ends with registry `["A", "B"]`,
aggregate "A" = 2 and aggregate "B" = 1. -/
theorem performClustering_valid_callback (s : ContractState)
    (sig : Nat → Bytes → Bytes → Bool) (r dpId : Nat) (f o c : String)
    (pf : Bytes)
    (hreg : lookupReq s.requestToDataPointId r = dpId) (hdp : dpId ≠ 0)
    (hnc : (s.decryptedDataPoints dpId).isClustered = false)
    (hsig : sig r (Bytes.triple f o c) pf = true) :
    performClustering s sig r (Bytes.triple f o c) pf =
      .ok (applyDecryption s dpId f o c) ∧
    (applyDecryption s dpId f o c).decryptedDataPoints dpId = ⟨f, o, c, true⟩ ∧
    (applyDecryption s dpId f o c).encryptedClusterStats c =
      some (euint32Add ((s.encryptedClusterStats c).getD 0) 1) ∧
    ((s.encryptedClusterStats c).getD 0 + 1 < 4294967296 →
      (applyDecryption s dpId f o c).encryptedClusterStats c =
        some ((s.encryptedClusterStats c).getD 0 + 1)) ∧
    (∀ ct' pf', performClustering (applyDecryption s dpId f o c) sig r ct' pf' =
      .error .alreadyClustered) ∧
    scenarioState.clusterList = ["A", "B"] ∧
    scenarioState.encryptedClusterStats "A" = some 2 ∧
    scenarioState.encryptedClusterStats "B" = some 1 := by
  subst hreg
  refine ⟨?_, ?_, ?_, ?_, ?_, by decide, by decide, by decide⟩
  · simp [performClustering, hdp, hnc, hsig, abiDecodeTriple]
  · rw [applyDecryption_records, setNat_self]
  · exact applyDecryption_stats_self s _ f o c
  · intro hlt
    rw [applyDecryption_stats_self]
    unfold euint32Add
    rw [Nat.mod_eq_of_lt hlt]
  · intro ct' pf'
    have hmap := applyDecryption_reqMap s
      (lookupReq s.requestToDataPointId r) f o c
    have hrec : ((applyDecryption s (lookupReq s.requestToDataPointId r) f o
        c).decryptedDataPoints (lookupReq s.requestToDataPointId r)).isClustered
        = true := by
      rw [applyDecryption_records, setNat_self]
    simp [performClustering, hmap, hrec, hdp]

/-- Witness for C1 at a concrete pending request. -/
theorem performClustering_valid_callback_witness :
    performClustering preState sigOK 0 (Bytes.triple "f1" "o1" "A") noProof =
      .ok (applyDecryption preState 1 "f1" "o1" "A") :=
  (performClustering_valid_callback preState sigOK 0 1 "f1" "o1" "A" noProof
    (by decide) (by decide) (by decide) rfl).1

/-- C2 (code bug evidence): `calculateClusterCentroids` never returns the
first member's features: the memory array `allFeatures` is declared but
never allocated, so the very first matching record triggers an
out-of-bounds array write and the call reverts with `Panic(0x32)`; only a
cluster without any clustered member returns the empty string. -/
theorem calculateClusterCentroids_eval :
    calculateClusterCentroids scenarioState "A" = .error .arrayOutOfBounds ∧
    calculateClusterCentroids scenarioState "B" = .error .arrayOutOfBounds ∧
    calculateClusterCentroids scenarioState "C" = .ok "" ∧
    calculateClusterCentroids initialState "A" = .ok "" := by
  refine ⟨rfl, rfl, rfl, rfl⟩

/-- C3: a `performClustering` callback with a request id that was never
registered in the pending-request map reverts with `Invalid request` and
leaves the state unchanged. -/
theorem performClustering_unknown_request (s : ContractState)
    (sig : Nat → Bytes → Bytes → Bool) (r : Nat) (ct pf : Bytes)
    (h : r ∉ s.requestToDataPointId.map Prod.fst) :
    performClustering s sig r ct pf = .error .invalidRequest ∧
    applyOp s (.callback sig r ct pf) = s := by
  have h0 : lookupReq s.requestToDataPointId r = 0 := lookupReq_not_mem h
  have h1 : performClustering s sig r ct pf = .error .invalidRequest := by
    simp [performClustering, h0]
  refine ⟨h1, ?_⟩
  show applyExcept s (performClustering s sig r ct pf) = s
  rw [h1]
  rfl

/-- Witness for C3 at a concrete unknown request id. -/
theorem performClustering_unknown_request_witness :
    performClustering initialState sigOK 5 (Bytes.triple "f" "o" "A") noProof =
      .error .invalidRequest ∧
    applyOp initialState (.callback sigOK 5 (Bytes.triple "f" "o" "A") noProof) =
      initialState :=
  performClustering_unknown_request initialState sigOK 5
    (Bytes.triple "f" "o" "A") noProof (by simp [initialState])

/-- C4: `requestFederatedClustering` reverts with `Already clustered`
whenever the record's decrypted shadow is already clustered; on a
not-yet-clustered id it succeeds, registering the oracle's next request id
against that id, and that request id never appeared in the pending-request
map before. -/
theorem requestClustering_guard_and_fresh (s : ContractState)
    (h : Reachable s) (id : Nat) :
    ((s.decryptedDataPoints id).isClustered = true →
      requestFederatedClustering s id = .error .alreadyClustered) ∧
    ((s.decryptedDataPoints id).isClustered = false →
      requestFederatedClustering s id =
        .ok { s with
          requestToDataPointId := (s.nextRequestId, id) :: s.requestToDataPointId
          nextRequestId := s.nextRequestId + 1 } ∧
      s.nextRequestId ∉ s.requestToDataPointId.map Prod.fst) := by
  constructor
  · intro hc
    simp [requestFederatedClustering, hc]
  · intro hc
    refine ⟨by simp [requestFederatedClustering, hc], ?_⟩
    intro hmem
    obtain ⟨p, hp, hfst⟩ := List.mem_map.mp hmem
    have hb := (reachable_inv h).reqIdBound p hp
    omega

/-- Witness for C4 on the freshly deployed contract. -/
theorem requestClustering_guard_and_fresh_witness :
    requestFederatedClustering initialState 1 =
      .ok { initialState with
        requestToDataPointId := [(0, 1)]
        nextRequestId := 1 } ∧
    initialState.nextRequestId ∉ initialState.requestToDataPointId.map Prod.fst :=
  (requestClustering_guard_and_fresh initialState Reachable.init 1).2 rfl

/-- C5 counterexample: with the target record already finalized and a proof
the verifier rejects, `performClustering` reverts with `AlreadyClustered`,
not with `InvalidProof` — the double-callback guard runs before the
signature check, contrary to the claimed order. -/
theorem proof_check_order_counterexample :
    performClustering cexState sigNO 0 (Bytes.triple "f1" "o1" "A") noProof =
      .error .alreadyClustered ∧
    (Except.error SolError.alreadyClustered : Except SolError ContractState) ≠
      .error .invalidProof := by
  constructor
  · rfl
  · intro hcon
    exact SolError.noConfusion (Except.error.inj hcon)

/-- C5 amended: after the request-id lookup succeeds, the already-clustered
double-callback guard runs before proof verification: a callback whose
target record is already finalized reverts with `AlreadyClustered` no
matter whether the proof is valid. -/
theorem alreadyClustered_guard_precedes_proof_check (s : ContractState)
    (sig : Nat → Bytes → Bytes → Bool) (r : Nat) (ct pf : Bytes)
    (hreg : lookupReq s.requestToDataPointId r ≠ 0)
    (hcl : (s.decryptedDataPoints
      (lookupReq s.requestToDataPointId r)).isClustered = true) :
    performClustering s sig r ct pf = .error .alreadyClustered := by
  simp [performClustering, hreg, hcl]

/-- Witness for the amended C5 with a rejecting verifier. -/
theorem alreadyClustered_guard_precedes_proof_check_witness :
    performClustering cexState sigNO 0 noProof noProof =
      .error .alreadyClustered :=
  alreadyClustered_guard_precedes_proof_check cexState sigNO 0 noProof noProof
    (by decide) (by decide)

/-- C6: in every reachable state the cluster registry is duplicate-free,
and a successful `performClustering` appends the decoded cluster id exactly
when it is not yet registered (first data point of the cluster), leaving
the registry unchanged otherwise. -/
theorem clusterList_registered_once (s : ContractState) (h : Reachable s) :
    s.clusterList.Nodup ∧
    ∀ (sig : Nat → Bytes → Bytes → Bool) (r : Nat) (pf : Bytes)
      (f o c : String) (s' : ContractState),
      performClustering s sig r (Bytes.triple f o c) pf = .ok s' →
      (c ∉ s.clusterList → s'.clusterList = s.clusterList ++ [c]) ∧
      (c ∈ s.clusterList → s'.clusterList = s.clusterList) := by
  have inv := reachable_inv h
  refine ⟨inv.nodupClusters, ?_⟩
  intro sig r pf f o c s' hok
  obtain ⟨f', o', c', hct, -, -, -, rfl⟩ := performClustering_ok_cases hok
  injection hct with hf ho hc
  subst hf
  subst ho
  subst hc
  rw [applyDecryption_clusterList]
  constructor
  · intro hni
    have hnone : (s.encryptedClusterStats c).isNone = true := by
      cases hstat : s.encryptedClusterStats c with
      | none => rfl
      | some v =>
        exact absurd ((inv.clusterStatsIff c).mpr (by simp [hstat])) hni
    rw [if_pos hnone]
  · intro hmem
    have hsome := (inv.clusterStatsIff c).mp hmem
    have hfalse : (s.encryptedClusterStats c).isNone = false := by
      cases hstat : s.encryptedClusterStats c with
      | none => rw [hstat] at hsome; simp at hsome
      | some v => rfl
    simp [hfalse]

/-- Witness for C6 at the scenario state. -/
theorem clusterList_registered_once_witness : scenarioState.clusterList.Nodup :=
  (clusterList_registered_once scenarioState (reachable_execTrace scenarioOps)).1

/-- C7: in every reachable state an unclustered record's plaintext fields
are all empty, and no transaction ever resets `isClustered` of an assigned
data point record (id between 1 and `dataPointCount`) from `true` back to
`false`. -/
theorem plaintext_empty_and_clustered_monotone (s : ContractState)
    (h : Reachable s) :
    (∀ id, (s.decryptedDataPoints id).isClustered = false →
      (s.decryptedDataPoints id).features = "" ∧
      (s.decryptedDataPoints id).dataOwner = "" ∧
      (s.decryptedDataPoints id).clusterId = "") ∧
    (∀ (op : Op) (id : Nat), 1 ≤ id → id ≤ s.dataPointCount →
      (s.decryptedDataPoints id).isClustered = true →
      ((applyOp s op).decryptedDataPoints id).isClustered = true) :=
  ⟨(reachable_inv h).emptyUntilClustered,
   fun op id _ hle hc => decrypted_applyOp_clustered s op id hle hc⟩

/-- Witness for C7: a further submission does not reset record 1 of the
scenario state. -/
theorem plaintext_empty_and_clustered_monotone_witness :
    ((applyOp scenarioState (.submit 14 24 34 103)).decryptedDataPoints
      1).isClustered = true :=
  (plaintext_empty_and_clustered_monotone scenarioState
    (reachable_execTrace scenarioOps)).2 (.submit 14 24 34 103) 1
    (by decide) (by decide) (by decide)

/-- C8: over any transaction trace from deployment, the ids handed out by
the successive submissions are exactly `1, 2, 3, …` — strictly increasing,
starting at 1, never reused. -/
theorem submit_ids_sequential (ops : List Op) :
    assignedIds initialState ops = List.range' 1 (submitCount ops) ∧
    List.Pairwise (· < ·) (assignedIds initialState ops) ∧
    (assignedIds initialState ops).Nodup := by
  have h : assignedIds initialState ops = List.range' 1 (submitCount ops) :=
    assignedIds_eq ops initialState
  refine ⟨h, ?_, ?_⟩
  · rw [h]
    exact List.pairwise_lt_range' 1 (submitCount ops) 1 Nat.one_pos
  · rw [h]
    exact List.nodup_range' 1 (submitCount ops) 1 Nat.one_pos

/-- C9 (code bug evidence): `findSimilarClusters` recomputes a centroid for
every registered cluster, and every registered cluster has at least one
clustered member, so the unallocated-array panic of
`calculateClusterCentroids` makes the call revert in any state with a
nonempty registry; only an empty registry yields the (empty) filtered
list. -/
theorem findSimilarClusters_eval :
    findSimilarClusters scenarioState "f1" 50 = .error .arrayOutOfBounds ∧
    findSimilarClusters scenarioState "f1" 100 = .error .arrayOutOfBounds ∧
    findSimilarClusters initialState "f1" 50 = .ok [] := by
  refine ⟨rfl, rfl, rfl⟩

/-- C10: a successful `decryptClusterStats` callback leaves every piece of
contract state unchanged — the decoded plaintext count is discarded. -/
theorem decryptClusterStats_frame (s : ContractState)
    (sig : Nat → Bytes → Bytes → Bool) (r : Nat) (ct pf : Bytes)
    (s' : ContractState) (h : decryptClusterStats s sig r ct pf = .ok s') :
    s' = s ∧ applyOp s (.statsCallback sig r ct pf) = s := by
  have heq := decryptClusterStats_ok_eq h
  refine ⟨heq, ?_⟩
  show applyExcept s (decryptClusterStats s sig r ct pf) = s
  rw [h]
  exact heq

/-- Witness for C10: a completed stats decryption for cluster "A". -/
theorem decryptClusterStats_frame_witness :
    decryptClusterStats statsState sigOK 3 (.word 2) noProof = .ok statsState ∧
    statsState = statsState :=
  ⟨rfl, (decryptClusterStats_frame statsState sigOK 3 (.word 2) noProof
    statsState rfl).1⟩

end FedCluster
